import Mathlib

/-!
Shallow embedding of the viewer session of `src/site/app.js`.

The JavaScript runs on a single-threaded event loop.  The two `async`
functions `renderPage` and `loadPdf` are sliced at their `await` points:
each synchronous slice becomes a Lean function on an explicit state, and
the suspension points become pending records (`PendingLoad` for
`loadingTask.promise`, `PendingPage` for `doc.getPage`, `RenderTask` for
`task.promise`).  The environment (backend + user) drives the machine by
events: DOM events start a slice, resolution events resume a suspended one.
Resolution events naming an id that is not pending are no-ops.
-/

namespace PdfViewer

/-- Path of the bundled worker — `LOCAL_WORKER` in app.js line 4. -/
def LOCAL_WORKER : String := "./vendor/pdfjs/pdf.worker.min.mjs"

/-- CDN worker URL — `CDN_WORKER` in app.js line 5. -/
def CDN_WORKER : String := "https://cdn.jsdelivr.net/npm/pdfjs-dist@4.10.38/build/pdf.worker.min.mjs"

/-- A manifest entry `{title, fileName}` (the `item` objects of `PDF_LIST`). -/
structure Item where
  title : String
  fileName : String
  deriving DecidableEq

/-- UTF-8 bytes of a character (needed by `encodeURIComponent`). -/
def utf8Bytes (c : Char) : List Nat :=
  let n := c.toNat
  if n < 0x80 then [n]
  else if n < 0x800 then [0xC0 + n / 0x40, 0x80 + n % 0x40]
  else if n < 0x10000 then
    [0xE0 + n / 0x1000, 0x80 + n / 0x40 % 0x40, 0x80 + n % 0x40]
  else
    [0xF0 + n / 0x40000, 0x80 + n / 0x1000 % 0x40, 0x80 + n / 0x40 % 0x40, 0x80 + n % 0x40]

/-- Uppercase hexadecimal digit. -/
def hexDigit (n : Nat) : Char :=
  if n < 10 then Char.ofNat (48 + n) else Char.ofNat (55 + n)

/-- The characters `encodeURIComponent` leaves unescaped: ASCII letters and
digits, the apostrophe, and `- _ . ! ~ * ( )`. -/
def uriUnreserved (c : Char) : Bool :=
  c.isAlphanum || c = '-' || c = '_' || c = '.' || c = '!' || c = '~' ||
    c = '*' || c = Char.ofNat 39 || c = '(' || c = ')'

/-- JavaScript's `encodeURIComponent`: unreserved characters kept, all
others percent-encoded as their UTF-8 bytes. -/
def encodeURIComponent (s : String) : String :=
  String.mk (s.data.foldr
    (fun c acc =>
      if uriUnreserved c then c :: acc
      else (utf8Bytes c).foldr (fun b a => '%' :: hexDigit (b / 16) :: hexDigit (b % 16) :: a) acc)
    [])

/-- The download/link URL of an item — app.js line 92:
``els.download.href = `./pdfs/${encodeURIComponent(item.fileName)}` ``. -/
def hrefOf (item : Item) : String := "./pdfs/" ++ encodeURIComponent item.fileName

/-- A decoded document (the pdf.js `PDFDocumentProxy`): an identity, its
`numPages`, and the URL it was decoded from. -/
structure Doc where
  id : Nat
  numPages : Int
  href : String
  deriving DecidableEq

/-- A pending `getDocument(...).promise` await (app.js lines 100-101 and
112-113): `attempt = 1` for the try block, `attempt = 2` for the catch's
retry; `href` is the value `els.download.href` had when `getDocument`
was called. -/
structure PendingLoad where
  id : Nat
  attempt : Nat
  href : String
  deriving DecidableEq

/-- Where a `renderPage` call was awaited from: directly from a DOM
handler (`standalone`), or from `await renderPage(1)` inside `loadPdf`'s
try block (`inLoad 1`, line 107) or retry block (`inLoad 2`, line 119).
An exception escaping `renderPage` propagates accordingly. -/
inductive Ctx where
  | standalone
  | inLoad (attempt : Nat)
  deriving DecidableEq

/-- A pending `doc.getPage(pageNum)` await (app.js line 63); `docId` is
the identity of the `const doc` captured at `renderPage` entry. -/
structure PendingPage where
  id : Nat
  docId : Nat
  pageNum : Int
  ctx : Ctx
  deriving DecidableEq

/-- An in-flight `page.render(...)` task (app.js line 71): cancellable
handle whose promise is awaited at line 75.  `cancelled` is set by
`task.cancel()`; a cancelled task's promise rejects with
`RenderingCancelledException`. -/
structure RenderTask where
  id : Nat
  docId : Nat
  pageNum : Int
  cancelled : Bool
  deriving DecidableEq

/-- Whole machine state: the `current` session object, the DOM pieces the
session writes (`els.*`), the module-level `GlobalWorkerOptions.workerSrc`,
console counters, and the sets of suspended awaits. -/
structure S where
  /-- field `current.doc` -/
  doc : Option Doc
  /-- field `current.item` -/
  item : Option Item
  /-- field `current.page` -/
  page : Int
  /-- field `current.pages` -/
  pages : Int
  /-- field `current.renderTask` (identity of the last stored task, if any) -/
  renderTask : Option Nat
  /-- text `els.status.textContent` -/
  status : String
  /-- flag `els.prev.disabled` -/
  prevDisabled : Bool
  /-- flag `els.next.disabled` -/
  nextDisabled : Bool
  /-- whether `els.download` has the `disabled` class -/
  downloadDisabled : Bool
  /-- text `els.indicator.textContent` -/
  indicator : String
  /-- text `els.title.textContent` -/
  title : String
  /-- text `els.meta.textContent` -/
  meta : String
  /-- link `els.download.href` -/
  downloadHref : String
  /-- dimension `els.canvas.width` -/
  canvasW : Int
  /-- dimension `els.canvas.height` -/
  canvasH : Int
  /-- the last (docId, pageNum) successfully rasterized onto the canvas -/
  surface : Option (Nat × Int)
  /-- value `pdfjsLib.GlobalWorkerOptions.workerSrc` -/
  workerSrc : String
  /-- number of `console.warn` calls -/
  warns : Nat
  /-- number of `console.error` calls -/
  errors : Nat
  /-- number of exceptions that escaped to the event loop unhandled -/
  uncaught : Nat
  /-- fresh-identity counter for pending records, tasks and documents -/
  nextId : Nat
  pendingLoads : List PendingLoad
  pendingPages : List PendingPage
  pendingRenders : List RenderTask
  deriving DecidableEq

/-- Mirrors `setStatus(msg)` — app.js lines 29-31 (the `or-empty` fallback is
the identity on strings, since the empty string is the only falsy string). -/
def setStatus (s : S) (msg : String) : S := { s with status := msg }

/-- Mirrors `setControlsEnabled(enabled)` — app.js lines 33-37. -/
def setControlsEnabled (s : S) (enabled : Bool) : S :=
  { s with prevDisabled := !enabled, nextDisabled := !enabled, downloadDisabled := !enabled }

/-- The text `` `Page ${page} / ${pages}` `` of app.js line 43. -/
def pageIndicatorText (page pages : Int) : String := s!"Page {page} / {pages}"

/-- The text `` `${doc.numPages} page(s)` `` of app.js line 104. -/
def metaText (numPages : Int) : String := s!"{numPages} page(s)"

/-- Mirrors `updatePager()` — app.js lines 39-44. -/
def updatePager (s : S) : S :=
  { s with
    prevDisabled := !(s.doc.isSome && decide (1 < s.page)),
    nextDisabled := !(s.doc.isSome && decide (s.page < s.pages)),
    indicator := if s.doc.isSome then pageIndicatorText s.page s.pages else ("—") }

/-- Mirrors `current.renderTask.cancel()` wrapped in try/ignore — app.js lines
51-57.  Marks the still-pending task with the stored identity as
cancelled; if that task has already settled (its id is no longer pending)
nothing happens. -/
def cancelInFlight (s : S) : S :=
  { s with pendingRenders :=
      match s.renderTask with
      | none => s.pendingRenders
      | some tid =>
        s.pendingRenders.map (fun t => if t.id = tid then { t with cancelled := true } else t) }

/-- The synchronous prefix of `renderPage(pageNum)` — app.js lines 46-63,
up to the `await doc.getPage(pageNum)` suspension: early return when no
document, cancel of the stored render task, `current.page := pageNum`,
`updatePager()`, status `Rendering…`, then suspend on `getPage`. -/
def renderPageStart (s : S) (pageNum : Int) (ctx : Ctx) : S :=
  match s.doc with
  | none => s
  | some d =>
    let s := cancelInFlight s
    let s := { s with page := pageNum }
    let s := updatePager s
    let s := setStatus s ("Rendering…")
    { s with
      pendingPages := ⟨s.nextId, d.id, pageNum, ctx⟩ :: s.pendingPages,
      nextId := s.nextId + 1 }

/-- The synchronous prefix of `loadPdf(item)` — app.js lines 84-101, up to
the `await loadingTask.promise` suspension: session reset, title/meta/
download wiring, controls disabled, status `Loading…`, then suspend on
`getDocument(els.download.href)` (attempt 1). -/
def loadPdfStart (s : S) (item : Item) : S :=
  let s := { s with item := some item, page := 1, pages := 0, doc := none }
  let s := { s with title := item.title, meta := "", downloadHref := hrefOf item }
  let s := setControlsEnabled s false
  let s := setStatus s ("Loading…")
  { s with
    pendingLoads := ⟨s.nextId, 1, s.downloadHref⟩ :: s.pendingLoads,
    nextId := s.nextId + 1 }

/-- Resumption of `loadPdf` when `loadingTask.promise` resolves — app.js
lines 102-107 (and identically 114-119 for the retry): install the
document, cache `numPages`, update meta, enable controls, `updatePager()`,
then run `renderPage(1)` up to its first suspension. -/
def onLoadResolved (s : S) (lid : Nat) (numPages : Int) : S :=
  match s.pendingLoads.find? (fun p => p.id == lid) with
  | none => s
  | some p =>
    let s := { s with pendingLoads := s.pendingLoads.filter (fun q => !(q.id == lid)) }
    let d : Doc := ⟨s.nextId, numPages, p.href⟩
    let s := { s with nextId := s.nextId + 1, doc := some d, pages := numPages }
    let s := { s with meta := metaText numPages }
    let s := setControlsEnabled s true
    let s := updatePager s
    renderPageStart s 1 (.inLoad p.attempt)

/-- Resumption of `loadPdf` when `loadingTask.promise` rejects.  For the
first attempt this is the catch at app.js lines 108-112: `console.warn`,
switch `workerSrc` to the CDN, and call `getDocument(els.download.href)`
again (attempt 2), reading the download href the DOM holds now.  For the
retry it is the catch at lines 120-123: `console.error` and the terminal
`Failed to load PDF.` status. -/
def onLoadFailed (s : S) (lid : Nat) : S :=
  match s.pendingLoads.find? (fun p => p.id == lid) with
  | none => s
  | some p =>
    let s := { s with pendingLoads := s.pendingLoads.filter (fun q => !(q.id == lid)) }
    if p.attempt = 1 then
      let s := { s with warns := s.warns + 1, workerSrc := CDN_WORKER }
      { s with
        pendingLoads := ⟨s.nextId, 2, s.downloadHref⟩ :: s.pendingLoads,
        nextId := s.nextId + 1 }
    else
      let s := { s with errors := s.errors + 1 }
      setStatus s ("Failed to load PDF.")

/-- Resumption of `renderPage` when `doc.getPage` resolves — app.js lines
64-72, up to the `await task.promise` suspension: viewport at scale 1.25
(its floored pixel dimensions are supplied by the backend as `vw`, `vh`),
canvas resize, start of the rasterization task, and storing the task as
`current.renderTask`. -/
def onPageResolved (s : S) (gid : Nat) (vw vh : Int) : S :=
  match s.pendingPages.find? (fun p => p.id == gid) with
  | none => s
  | some p =>
    let s := { s with pendingPages := s.pendingPages.filter (fun q => !(q.id == gid)) }
    let s := { s with canvasW := vw, canvasH := vh }
    let t : RenderTask := ⟨s.nextId, p.docId, p.pageNum, false⟩
    { s with
      pendingRenders := t :: s.pendingRenders,
      renderTask := some t.id,
      nextId := s.nextId + 1 }

/-- Resumption when `doc.getPage` rejects.  The `await` at app.js line 63
is not inside any try block of `renderPage`, so the exception escapes
`renderPage`: from a DOM handler (`standalone`) it reaches the event loop
unhandled; from `await renderPage(1)` inside `loadPdf` it is caught by the
enclosing catch (lines 108-112 resp. 120-123). -/
def onPageFailed (s : S) (gid : Nat) : S :=
  match s.pendingPages.find? (fun p => p.id == gid) with
  | none => s
  | some p =>
    let s := { s with pendingPages := s.pendingPages.filter (fun q => !(q.id == gid)) }
    match p.ctx with
    | .standalone => { s with uncaught := s.uncaught + 1 }
    | .inLoad a =>
      if a = 1 then
        let s := { s with warns := s.warns + 1, workerSrc := CDN_WORKER }
        { s with
          pendingLoads := ⟨s.nextId, 2, s.downloadHref⟩ :: s.pendingLoads,
          nextId := s.nextId + 1 }
      else
        let s := { s with errors := s.errors + 1 }
        setStatus s ("Failed to load PDF.")

/-- Resumption when `task.promise` settles — app.js lines 74-81.  A task
whose `cancel()` was called rejects with `RenderingCancelledException`
(`return`, line 78).  Otherwise `ok = true` resolves (status cleared,
page pixels on the canvas) and `ok = false` rejects for a real reason
(`console.error`, status `Failed to render page.`). -/
def onRenderSettled (s : S) (tid : Nat) (ok : Bool) : S :=
  match s.pendingRenders.find? (fun t => t.id == tid) with
  | none => s
  | some t =>
    let s := { s with pendingRenders := s.pendingRenders.filter (fun u => !(u.id == tid)) }
    if t.cancelled then s
    else if ok then
      let s := { s with surface := some (t.docId, t.pageNum) }
      setStatus s ("")
    else
      let s := { s with errors := s.errors + 1 }
      setStatus s ("Failed to render page.")

/-- Events driving the machine: DOM events start a synchronous slice,
resolution events resume a suspended await. -/
inductive Ev where
  /-- a list-button click: `await loadPdf(item)` — app.js line 144 -/
  | select (item : Item)
  /-- click on `els.prev` — app.js line 150; a disabled button fires no handler -/
  | clickPrev
  /-- click on `els.next` — app.js line 151; a disabled button fires no handler -/
  | clickNext
  /-- a direct `renderPage(n)` call -/
  | renderReq (n : Int)
  /-- backend event: `loadingTask.promise` for pending load `lid` resolves to a document with `numPages` pages -/
  | loadOk (lid : Nat) (numPages : Int)
  /-- backend event: `loadingTask.promise` for pending load `lid` rejects -/
  | loadErr (lid : Nat)
  /-- backend event: `doc.getPage` for pending request `gid` resolves; `vw`, `vh` are the floored viewport dimensions -/
  | pageOk (gid : Nat) (vw vh : Int)
  /-- backend event: `doc.getPage` for pending request `gid` rejects -/
  | pageErr (gid : Nat)
  /-- backend event: `task.promise` for render task `tid` settles (`ok` = resolved, ignored when the task was cancelled) -/
  | renderRes (tid : Nat) (ok : Bool)
  deriving DecidableEq

/-- One event-loop turn. -/
def step (s : S) (ev : Ev) : S :=
  match ev with
  | .select item => loadPdfStart s item
  | .clickPrev => if s.prevDisabled then s else renderPageStart s (s.page - 1) .standalone
  | .clickNext => if s.nextDisabled then s else renderPageStart s (s.page + 1) .standalone
  | .renderReq n => renderPageStart s n .standalone
  | .loadOk lid numPages => onLoadResolved s lid numPages
  | .loadErr lid => onLoadFailed s lid
  | .pageOk gid vw vh => onPageResolved s gid vw vh
  | .pageErr gid => onPageFailed s gid
  | .renderRes tid ok => onRenderSettled s tid ok

/-- Run a sequence of events. -/
def run (s : S) (evs : List Ev) : S := evs.foldl step s

/-- The state at page start.  The `current` fields and `workerSrc` are
app.js lines 7, 21-27.  The initial DOM control state comes from
`index.html`, which the build generates and which is not part of the
sources; modelled from the spec: controls start disabled and the
indicator shows the neutral placeholder before any document is active. -/
def init : S where
  doc := none
  item := none
  page := 1
  pages := 0
  renderTask := none
  status := ""
  prevDisabled := true
  nextDisabled := true
  downloadDisabled := true
  indicator := "—"
  title := ""
  meta := ""
  downloadHref := ""
  canvasW := 0
  canvasH := 0
  surface := none
  workerSrc := LOCAL_WORKER
  warns := 0
  errors := 0
  uncaught := 0
  nextId := 0
  pendingLoads := []
  pendingPages := []
  pendingRenders := []

/-- Events available to the public interface with a well-formed backend:
no direct `renderPage` calls (navigation goes through the controls, which
no-op when disabled), and every decoded document has at least one page. -/
def allowedEv : Ev → Bool
  | .renderReq _ => false
  | .loadOk _ numPages => decide (1 ≤ numPages)
  | _ => true

/-- A trace of public-interface events. -/
def allowedTrace (evs : List Ev) : Bool := evs.all allowedEv

/-- Session/pager consistency: when no document is active the controls
are disabled, and when a document is active the current page is within
`[1, pageCount]` and the prev/next controls and the page indicator agree
with the `updatePager` derivation from `(page, pages)`. -/
def Inv (s : S) : Prop :=
  (s.doc = none →
    s.prevDisabled = true ∧ s.nextDisabled = true ∧ s.downloadDisabled = true) ∧
  (∀ d : Doc, s.doc = some d →
    1 ≤ s.page ∧ s.page ≤ s.pages ∧
    s.prevDisabled = !decide (1 < s.page) ∧
    s.nextDisabled = !decide (s.page < s.pages) ∧
    s.indicator = pageIndicatorText s.page s.pages)

/-! ### Concrete scenarios

Two manifest entries and the event traces the theorems below evaluate.
Identities are assigned by `nextId` in order of creation, so in each
trace the numeric ids are determined by the events before them. -/

/-- A first manifest entry. -/
def itemA : Item := ⟨"Document A", "a.pdf"⟩

/-- A second manifest entry. -/
def itemB : Item := ⟨"Document B", "b.pdf"⟩

/-- Select A (load id 0), load resolves with 5 pages (doc id 1, page-fetch
id 2), page 1 renders fully (task id 3).  Then `renderPage 2` (r1,
page-fetch id 4) and, while r1 still awaits its page fetch, `renderPage 3`
(r2, page-fetch id 5).  r1's page fetch then resolves (task id 6) and its
rasterization completes. -/
def interleaveTrace : List Ev :=
  [.select itemA, .loadOk 0 5, .pageOk 2 100 200, .renderRes 3 true,
   .renderReq 2, .renderReq 3, .pageOk 4 100 200, .renderRes 6 true]

/-- Select A (load id 0), then select B (load id 1) before A's load
resolves; B's load resolves first (doc id 2), then A's resolves late
(doc id 4). -/
def staleLoadTrace : List Ev := [.select itemA, .select itemB, .loadOk 1 3, .loadOk 0 5]

/-- Select A, its load resolves with 5 pages, page 1's page fetch resolves
(task id 3 in flight), then B is selected while that render is still in
flight. -/
def staleRenderTrace : List Ev := [.select itemA, .loadOk 0 5, .pageOk 2 100 200, .select itemB]

/-- Both attempts of A's load fail (load ids 0 and 1), degrading the
session to the CDN worker; then B is selected (load id 2). -/
def degradedTrace : List Ev := [.select itemA, .loadErr 0, .loadErr 1, .select itemB]

/-- Select A; the first (local-worker) load attempt fails, the CDN retry
(load id 1) resolves with 5 pages, and page 1 renders fully. -/
def fallbackTrace : List Ev :=
  [.select itemA, .loadErr 0, .loadOk 1 5, .pageOk 3 100 200, .renderRes 4 true]

/-- Select A, page 1 renders fully, then `renderPage 2` whose page fetch
(id 4) fails while suspended from a DOM handler. -/
def pageFetchFailTrace : List Ev :=
  [.select itemA, .loadOk 0 5, .pageOk 2 100 200, .renderRes 3 true, .renderReq 2, .pageErr 4]

/-- Select A and render page 1 of 5 fully, then select B and have both of
B's load attempts (ids 4 and 5) fail. -/
def staleIndicatorTrace : List Ev :=
  [.select itemA, .loadOk 0 5, .pageOk 2 100 200, .renderRes 3 true,
   .select itemB, .loadErr 4, .loadErr 5]

/-- Select A and render page 1 of 5 fully: a quiescent loaded session
(next fresh id 4). -/
def loadedTrace : List Ev := [.select itemA, .loadOk 0 5, .pageOk 2 100 200, .renderRes 3 true]

/-- Select A with a 5-page document, request page 3 (page-fetch id 3)
and let the load-triggered page-1 fetch resolve (task id 4): a state with
both a pending page fetch and an uncancelled in-flight render. -/
def mixedPendingTrace : List Ev := [.select itemA, .loadOk 0 5, .renderReq 3, .pageOk 2 100 200]

/-- Select A with a 5-page document, let the page-1 fetch resolve:
render task 3 is in flight (uncancelled) and stored as the current
render task. -/
def inFlightTrace : List Ev := [.select itemA, .loadOk 0 5, .pageOk 2 100 200]

/-- Like `inFlightTrace`, followed by `renderPage 2`, whose start cancels
the stored in-flight task 3. -/
def cancelledTrace : List Ev := [.select itemA, .loadOk 0 5, .pageOk 2 100 200, .renderReq 2]

/-! ### Theorems -/

/-- C10: calling `renderPage(n)` with no document loaded returns
immediately and changes nothing at all: the resulting state is the very
same state, for every page number `n`. -/
theorem renderPage_no_doc_noop (s : S) (n : Int) (h : s.doc = none) :
    step s (.renderReq n) = s := by
  simp [step, renderPageStart, h]

/-- C10 witness: `renderPage 7` on the initial (document-less) state is a
complete no-op. -/
theorem renderPage_no_doc_witness : step init (.renderReq 7) = init :=
  renderPage_no_doc_noop init 7 rfl

/-- C4: if both the local attempt and the CDN retry of a load fail, the
final state has no active document, the terminal `Failed to load PDF.`
status, all navigation/download controls disabled, nothing pending (so no
further automatic retry exists), one logged error, and the session
degraded to the CDN worker. -/
theorem double_load_failure (item : Item) :
    (run init [.select item, .loadErr 0, .loadErr 1]).doc = none ∧
    (run init [.select item, .loadErr 0, .loadErr 1]).status = "Failed to load PDF." ∧
    (run init [.select item, .loadErr 0, .loadErr 1]).prevDisabled = true ∧
    (run init [.select item, .loadErr 0, .loadErr 1]).nextDisabled = true ∧
    (run init [.select item, .loadErr 0, .loadErr 1]).downloadDisabled = true ∧
    (run init [.select item, .loadErr 0, .loadErr 1]).pendingLoads = [] ∧
    (run init [.select item, .loadErr 0, .loadErr 1]).pendingPages = [] ∧
    (run init [.select item, .loadErr 0, .loadErr 1]).pendingRenders = [] ∧
    (run init [.select item, .loadErr 0, .loadErr 1]).errors = 1 ∧
    (run init [.select item, .loadErr 0, .loadErr 1]).workerSrc = CDN_WORKER := by
  refine ⟨rfl, rfl, rfl, rfl, rfl, rfl, rfl, rfl, rfl, rfl⟩

/-- C1 counterexample: in `interleaveTrace`, render request r2 (page 3)
starts while r1 (page 2) is still awaiting its page fetch, so r1's task
does not exist yet and is not cancelled by r2; r1 later completes
normally and observably updates the session after r2's start: the surface
ends showing page 2 while `currentPage` is 3, the status line is cleared
by r1's completion, and r2's own page fetch is still unresolved.  This
refutes the claim that every earlier request resolves via the
cancelled/no-op path and never performs a visible update after the last
request starts. -/
theorem render_supersession_cex :
    (run init interleaveTrace).surface = some (1, 2) ∧
    (run init interleaveTrace).page = 3 ∧
    (run init interleaveTrace).status = "" ∧
    (run init interleaveTrace).pendingPages = [⟨5, 1, 3, .standalone⟩] := by
  refine ⟨rfl, rfl, rfl, rfl⟩

/-- C2 counterexample: (i) in `staleLoadTrace`, document B is selected
before A's load resolves, B's load resolves first, and A's stale
resolution is then applied rather than discarded — the final active
document is A's, not B's; (ii) in `staleRenderTrace`, a render task of
document A is still in flight when B's load starts (status `Loading…`),
and its completion afterwards observably clears the status and paints
A's page — a render of A completing after B's load started. -/
theorem load_supersession_cex :
    ((run init staleLoadTrace).doc.map Doc.href = some (hrefOf itemA) ∧
      hrefOf itemA ≠ hrefOf itemB) ∧
    ((run init staleRenderTrace).status = "Loading…" ∧
      (run init (staleRenderTrace ++ [.renderRes 3 true])).status = "" ∧
      (run init (staleRenderTrace ++ [.renderRes 3 true])).surface = some (1, 1)) := by
  exact ⟨⟨rfl, by decide⟩, rfl, rfl, rfl⟩

/-- C3 counterexample: in `degradedTrace` the session has already
degraded to the CDN worker (`workerSrc = CDN_WORKER`) when document B's
load is issued; when that load's first attempt fails — a load failure
while `workerSource == RemoteFallback` — an automatic retry is
nevertheless issued (an attempt-2 pending load appears and a second
warning is logged), refuting the claim that no automatic retry is performed
when a load fails while `workerSource == RemoteFallback`. -/
theorem worker_fallback_cex :
    (run init degradedTrace).workerSrc = CDN_WORKER ∧
    (run init (degradedTrace ++ [.loadErr 2])).pendingLoads = [⟨3, 2, hrefOf itemB⟩] ∧
    (run init (degradedTrace ++ [.loadErr 2])).warns = 2 := by
  refine ⟨rfl, rfl, rfl⟩

/-- C5 counterexample: in `pageFetchFailTrace` the page fetch of a
navigation-triggered render fails; the `await doc.getPage` of app.js line
63 is outside every try block of `renderPage`, so the failure escapes to
the event loop (`uncaught = 1`), the status line is left stuck at
`Rendering…`, and the stored render handle is not cleared — refuting both
the catch-at-the-boundary part of the claim and the part that every failure
path leaves `pendingRender` cleared. -/
theorem failure_containment_cex :
    (run init pageFetchFailTrace).uncaught = 1 ∧
    (run init pageFetchFailTrace).status = "Rendering…" ∧
    (run init pageFetchFailTrace).renderTask = some 3 ∧
    (run init pageFetchFailTrace).doc.isSome = true := by
  refine ⟨rfl, rfl, rfl, rfl⟩

/-- C7 counterexample: in `staleIndicatorTrace` a 5-page document was
shown and then a load of document B failed twice: the final state has no
active document, yet the page indicator still reads `Page 1 / 5` instead
of the neutral placeholder `—` — the failing load path never refreshes
the indicator, refuting the claim for states reached by that update. -/
theorem pager_state_cex :
    (run init staleIndicatorTrace).doc = none ∧
    (run init staleIndicatorTrace).indicator = "Page 1 / 5" ∧
    (run init staleIndicatorTrace).indicator ≠ "—" := by
  refine ⟨rfl, rfl, by decide⟩

/-- C6: for a state with an active document and a valid page index `n`,
`renderPage n` followed by its page fetch resolving and its rasterization
task succeeding leaves `currentPage = n` and the status line cleared. -/
theorem renderPage_success (s : S) (d : Doc) (n vw vh : Int)
    (hd : s.doc = some d) (_h1 : 1 ≤ n) (_h2 : n ≤ s.pages) :
    (step (step (step s (.renderReq n)) (.pageOk s.nextId vw vh))
        (.renderRes (s.nextId + 1) true)).page = n ∧
    (step (step (step s (.renderReq n)) (.pageOk s.nextId vw vh))
        (.renderRes (s.nextId + 1) true)).status = "" := by
  simp [step, renderPageStart, hd, cancelInFlight, updatePager, setStatus,
    onPageResolved, onRenderSettled, List.find?]

/-- C6 witness: on the quiescent loaded 5-page session of `loadedTrace`
(next fresh id 4), requesting page 4 and letting its fetch (id 4) and
rasterization (task id 5) succeed ends with `currentPage = 4` and an
empty status. -/
theorem renderPage_success_witness :
    ((1:Int) ≤ 4 ∧ (4:Int) ≤ (run init loadedTrace).pages) ∧
    ((step (step (step (run init loadedTrace) (.renderReq 4)) (.pageOk 4 10 10))
        (.renderRes 5 true)).page = 4 ∧
      (step (step (step (run init loadedTrace) (.renderReq 4)) (.pageOk 4 10 10))
        (.renderRes 5 true)).status = "") :=
  ⟨⟨by decide, by decide⟩,
    renderPage_success (run init loadedTrace) ⟨1, 5, "./pdfs/a.pdf"⟩ 4 10 10 rfl
      (by decide) (by decide)⟩

/-- C8: when a render task settles, the session discriminates by the
cancellation flag of the stored handle: a cancelled task's settlement
changes nothing beyond removing the pending task — no status change, no
error surfaced — while an uncancelled rejection sets the status to
`Failed to render page.`, logs the cause, and leaves the loaded document
state (document, page count, current page, surface) unaffected. -/
theorem render_outcome_discrimination (s : S) (tid : Nat) (t : RenderTask)
    (ht : s.pendingRenders.find? (fun u => u.id == tid) = some t) :
    (t.cancelled = true → ∀ ok, step s (.renderRes tid ok) =
      { s with pendingRenders := s.pendingRenders.filter (fun u => !(u.id == tid)) }) ∧
    (t.cancelled = false →
      (step s (.renderRes tid false)).status = "Failed to render page." ∧
      (step s (.renderRes tid false)).errors = s.errors + 1 ∧
      (step s (.renderRes tid false)).uncaught = s.uncaught ∧
      (step s (.renderRes tid false)).doc = s.doc ∧
      (step s (.renderRes tid false)).pages = s.pages ∧
      (step s (.renderRes tid false)).page = s.page ∧
      (step s (.renderRes tid false)).surface = s.surface) := by
  constructor
  · intro h ok
    simp [step, onRenderSettled, ht, h]
  · intro h
    simp [step, onRenderSettled, ht, h, setStatus]

/-- C8 witness: in `cancelledTrace` task 3 is cancelled and its
settlement is silent; in `mixedPendingTrace` task 4 is uncancelled and
its rejection surfaces the render-failure status, applying the
discrimination theorem at both concrete states. -/
theorem render_outcome_witness :
    ((⟨3, 1, 1, true⟩ : RenderTask).cancelled = true → ∀ ok,
      step (run init cancelledTrace) (.renderRes 3 ok) =
        { run init cancelledTrace with
          pendingRenders :=
            (run init cancelledTrace).pendingRenders.filter (fun u => !(u.id == 3)) }) ∧
    ((⟨4, 1, 1, false⟩ : RenderTask).cancelled = false →
      (step (run init mixedPendingTrace) (.renderRes 4 false)).status =
          "Failed to render page." ∧
      (step (run init mixedPendingTrace) (.renderRes 4 false)).errors =
          (run init mixedPendingTrace).errors + 1 ∧
      (step (run init mixedPendingTrace) (.renderRes 4 false)).uncaught =
          (run init mixedPendingTrace).uncaught ∧
      (step (run init mixedPendingTrace) (.renderRes 4 false)).doc =
          (run init mixedPendingTrace).doc ∧
      (step (run init mixedPendingTrace) (.renderRes 4 false)).pages =
          (run init mixedPendingTrace).pages ∧
      (step (run init mixedPendingTrace) (.renderRes 4 false)).page =
          (run init mixedPendingTrace).page ∧
      (step (run init mixedPendingTrace) (.renderRes 4 false)).surface =
          (run init mixedPendingTrace).surface) :=
  ⟨(render_outcome_discrimination (run init cancelledTrace) 3 ⟨3, 1, 1, true⟩ rfl).1,
    (render_outcome_discrimination (run init mixedPendingTrace) 4 ⟨4, 1, 1, false⟩ rfl).2⟩

/-- C5 amended: backend failures in the rasterization phase are caught
inside `renderPage` (status set, cause logged, document, current page and
controls untouched, nothing reaches the event loop), and a page-fetch
failure during a load-triggered render is caught by `loadPdf`'s catch
blocks; but a page-fetch failure in a render issued outside a load
propagates uncaught to the event loop, and no failure path clears the
stored render handle — it is only superseded by the next render's
cancel. -/
theorem failure_containment (s : S) (gid tid : Nat) (p : PendingPage) (t : RenderTask)
    (hp : s.pendingPages.find? (fun q => q.id == gid) = some p)
    (ht : s.pendingRenders.find? (fun u => u.id == tid) = some t)
    (hc : t.cancelled = false) :
    ((step s (.pageErr gid)).uncaught =
        (if p.ctx = .standalone then s.uncaught + 1 else s.uncaught)) ∧
    (step s (.pageErr gid)).doc = s.doc ∧
    (step s (.pageErr gid)).renderTask = s.renderTask ∧
    (step s (.pageErr gid)).page = s.page ∧
    (step s (.pageErr gid)).prevDisabled = s.prevDisabled ∧
    (step s (.pageErr gid)).nextDisabled = s.nextDisabled ∧
    (step s (.renderRes tid false)).uncaught = s.uncaught ∧
    (step s (.renderRes tid false)).status = "Failed to render page." ∧
    (step s (.renderRes tid false)).errors = s.errors + 1 ∧
    (step s (.renderRes tid false)).doc = s.doc ∧
    (step s (.renderRes tid false)).page = s.page ∧
    (step s (.renderRes tid false)).prevDisabled = s.prevDisabled ∧
    (step s (.renderRes tid false)).nextDisabled = s.nextDisabled ∧
    (step s (.renderRes tid false)).renderTask = s.renderTask := by
  have hpage : (step s (.pageErr gid)).uncaught =
        (if p.ctx = .standalone then s.uncaught + 1 else s.uncaught) ∧
      (step s (.pageErr gid)).doc = s.doc ∧
      (step s (.pageErr gid)).renderTask = s.renderTask ∧
      (step s (.pageErr gid)).page = s.page ∧
      (step s (.pageErr gid)).prevDisabled = s.prevDisabled ∧
      (step s (.pageErr gid)).nextDisabled = s.nextDisabled := by
    cases hctx : p.ctx with
    | standalone => simp [step, onPageFailed, hp, hctx]
    | inLoad a =>
      by_cases ha : a = 1 <;>
        simp [step, onPageFailed, hp, hctx, ha, setStatus]
  refine ⟨hpage.1, hpage.2.1, hpage.2.2.1, hpage.2.2.2.1, hpage.2.2.2.2.1, hpage.2.2.2.2.2,
    ?_, ?_, ?_, ?_, ?_, ?_, ?_, ?_⟩ <;>
    simp [step, onRenderSettled, ht, hc, setStatus]

/-- C5 witness: the mixed pending state of `mixedPendingTrace` has a
standalone pending page fetch (id 3) and an uncancelled in-flight render
(task 4); applying the containment theorem there shows the page-fetch
failure reaching the event loop and the rasterization failure being
caught. -/
theorem failure_containment_witness :
    ((step (run init mixedPendingTrace) (.pageErr 3)).uncaught =
        (if (⟨3, 1, 3, .standalone⟩ : PendingPage).ctx = .standalone then
          (run init mixedPendingTrace).uncaught + 1
        else (run init mixedPendingTrace).uncaught)) ∧
    (step (run init mixedPendingTrace) (.pageErr 3)).doc = (run init mixedPendingTrace).doc ∧
    (step (run init mixedPendingTrace) (.pageErr 3)).renderTask =
      (run init mixedPendingTrace).renderTask ∧
    (step (run init mixedPendingTrace) (.pageErr 3)).page = (run init mixedPendingTrace).page ∧
    (step (run init mixedPendingTrace) (.pageErr 3)).prevDisabled =
      (run init mixedPendingTrace).prevDisabled ∧
    (step (run init mixedPendingTrace) (.pageErr 3)).nextDisabled =
      (run init mixedPendingTrace).nextDisabled ∧
    (step (run init mixedPendingTrace) (.renderRes 4 false)).uncaught =
      (run init mixedPendingTrace).uncaught ∧
    (step (run init mixedPendingTrace) (.renderRes 4 false)).status =
      "Failed to render page." ∧
    (step (run init mixedPendingTrace) (.renderRes 4 false)).errors =
      (run init mixedPendingTrace).errors + 1 ∧
    (step (run init mixedPendingTrace) (.renderRes 4 false)).doc =
      (run init mixedPendingTrace).doc ∧
    (step (run init mixedPendingTrace) (.renderRes 4 false)).page =
      (run init mixedPendingTrace).page ∧
    (step (run init mixedPendingTrace) (.renderRes 4 false)).prevDisabled =
      (run init mixedPendingTrace).prevDisabled ∧
    (step (run init mixedPendingTrace) (.renderRes 4 false)).nextDisabled =
      (run init mixedPendingTrace).nextDisabled ∧
    (step (run init mixedPendingTrace) (.renderRes 4 false)).renderTask =
      (run init mixedPendingTrace).renderTask :=
  failure_containment (run init mixedPendingTrace) 3 4 ⟨3, 1, 3, .standalone⟩
    ⟨4, 1, 1, false⟩ rfl rfl rfl

/-- C2 amended: starting a load synchronously clears the active document
and queues a new attempt-1 load, but discards nothing: in-flight renders
are not cancelled and earlier pending loads stay pending; and every load
resolution that is applied installs the document of its own request — so
the final state reflects whichever resolution arrives last, not
necessarily the most recently requested document. -/
theorem load_supersession (s : S) (item : Item) (lid : Nat) (k : Int) (p : PendingLoad)
    (hp : s.pendingLoads.find? (fun q => q.id == lid) = some p) :
    (step s (.select item)).doc = none ∧
    (step s (.select item)).pendingRenders = s.pendingRenders ∧
    (step s (.select item)).pendingLoads = ⟨s.nextId, 1, hrefOf item⟩ :: s.pendingLoads ∧
    (step s (.loadOk lid k)).doc = some ⟨s.nextId, k, p.href⟩ := by
  refine ⟨rfl, rfl, rfl, ?_⟩
  simp [step, onLoadResolved, hp, renderPageStart, cancelInFlight, updatePager,
    setStatus, setControlsEnabled]

/-- C2 witness: with A's load (id 0) pending, selecting B resets the
session and queues B's load without discarding A's; resolving A's load
afterwards with 7 pages installs A's document. -/
theorem load_supersession_witness :
    (step (run init [.select itemA]) (.select itemB)).doc = none ∧
    (step (run init [.select itemA]) (.select itemB)).pendingRenders =
      (run init [.select itemA]).pendingRenders ∧
    (step (run init [.select itemA]) (.select itemB)).pendingLoads =
      ⟨1, 1, hrefOf itemB⟩ :: (run init [.select itemA]).pendingLoads ∧
    (step (run init [.select itemA]) (.loadOk 0 7)).doc = some ⟨1, 7, "./pdfs/a.pdf"⟩ :=
  load_supersession (run init [.select itemA]) itemB 0 7 ⟨0, 1, "./pdfs/a.pdf"⟩ rfl

/-- C3 amended: within a single load, failure of the first attempt always
triggers exactly one automatic retry — switching `workerSrc` to the CDN
regardless of its previous value — while failure of the retry triggers
none and surfaces the terminal status; and in the canonical fallback
scenario (local attempt fails, CDN retry succeeds) the session ends
degraded with a loaded document and no error shown. -/
theorem worker_fallback (s : S) (lid : Nat) (p : PendingLoad)
    (hp : s.pendingLoads.find? (fun q => q.id == lid) = some p) :
    (p.attempt = 1 →
      (step s (.loadErr lid)).workerSrc = CDN_WORKER ∧
      (step s (.loadErr lid)).pendingLoads =
        ⟨s.nextId, 2, s.downloadHref⟩ :: s.pendingLoads.filter (fun q => !(q.id == lid))) ∧
    (p.attempt ≠ 1 →
      (step s (.loadErr lid)).status = "Failed to load PDF." ∧
      (step s (.loadErr lid)).pendingLoads = s.pendingLoads.filter (fun q => !(q.id == lid))) ∧
    ((run init fallbackTrace).workerSrc = CDN_WORKER ∧
      (run init fallbackTrace).doc.isSome = true ∧
      (run init fallbackTrace).status = "") := by
  refine ⟨fun h => ?_, fun h => ?_, rfl, rfl, rfl⟩ <;>
    simp [step, onLoadFailed, hp, h, setStatus]

/-- C3 witness: with A's attempt-1 load (id 0) pending, its failure
issues exactly one CDN retry, applying the fallback theorem at that
concrete state. -/
theorem worker_fallback_witness :
    ((⟨0, 1, "./pdfs/a.pdf"⟩ : PendingLoad).attempt = 1 →
      (step (run init [.select itemA]) (.loadErr 0)).workerSrc = CDN_WORKER ∧
      (step (run init [.select itemA]) (.loadErr 0)).pendingLoads =
        ⟨1, 2, (run init [.select itemA]).downloadHref⟩ ::
          (run init [.select itemA]).pendingLoads.filter (fun q => !(q.id == 0))) ∧
    ((⟨0, 1, "./pdfs/a.pdf"⟩ : PendingLoad).attempt ≠ 1 →
      (step (run init [.select itemA]) (.loadErr 0)).status = "Failed to load PDF." ∧
      (step (run init [.select itemA]) (.loadErr 0)).pendingLoads =
        (run init [.select itemA]).pendingLoads.filter (fun q => !(q.id == 0))) ∧
    ((run init fallbackTrace).workerSrc = CDN_WORKER ∧
      (run init fallbackTrace).doc.isSome = true ∧
      (run init fallbackTrace).status = "") :=
  worker_fallback (run init [.select itemA]) 0 ⟨0, 1, "./pdfs/a.pdf"⟩ rfl

/-- C1 amended: supersession holds only from the rasterization stage on:
when the predecessor render has already stored its task as the current
render handle, a new `renderPage` start cancels that task, and the
cancelled task's later settlement is silent — it changes neither status
nor surface nor the error log.  (A predecessor still awaiting its page
fetch is not cancelled and may still update the session, as the
counterexample trace shows.) -/
theorem render_supersession (s : S) (d : Doc) (t : RenderTask) (n : Int)
    (hd : s.doc = some d) (hr : s.renderTask = some t.id) (hm : t ∈ s.pendingRenders) :
    (∀ u ∈ (step s (.renderReq n)).pendingRenders, u.id = t.id → u.cancelled = true) ∧
    (∀ ok,
      (step (step s (.renderReq n)) (.renderRes t.id ok)).status =
        (step s (.renderReq n)).status ∧
      (step (step s (.renderReq n)) (.renderRes t.id ok)).surface =
        (step s (.renderReq n)).surface ∧
      (step (step s (.renderReq n)) (.renderRes t.id ok)).errors =
        (step s (.renderReq n)).errors) := by
  have hpr : (step s (.renderReq n)).pendingRenders =
      s.pendingRenders.map
        (fun u => if u.id = t.id then { u with cancelled := true } else u) := by
    simp [step, renderPageStart, hd, cancelInFlight, hr, updatePager, setStatus]
  have hmark : ∀ u ∈ (step s (.renderReq n)).pendingRenders, u.id = t.id → u.cancelled = true := by
    intro u hu hid
    rw [hpr] at hu
    obtain ⟨v, hv, rfl⟩ := List.mem_map.mp hu
    by_cases h : v.id = t.id
    · simp [h]
    · simp [h] at hid
  refine ⟨hmark, ?_⟩
  have hex : ((step s (.renderReq n)).pendingRenders.find?
      (fun u => u.id == t.id)).isSome = true := by
    rw [List.find?_isSome, hpr]
    exact ⟨_, List.mem_map_of_mem _ hm, by simp⟩
  obtain ⟨w, hw⟩ := Option.isSome_iff_exists.mp hex
  have hwp : w.id = t.id := by simpa using List.find?_some hw
  have hwc : w.cancelled = true := hmark w (List.mem_of_find?_eq_some hw) hwp
  have hw2 : List.find? (fun u => u.id == t.id)
      (renderPageStart s n .standalone).pendingRenders = some w := hw
  intro ok
  refine ⟨?_, ?_, ?_⟩ <;> simp [step, onRenderSettled, hw2, hwc]

/-- C1 witness: in the in-flight state of `inFlightTrace` (task 3 stored
and pending, uncancelled), a new `renderPage 2` cancels task 3 and task
3's settlement is then silent, applying the supersession theorem at that
concrete state. -/
theorem render_supersession_witness :
    (∀ u ∈ (step (run init inFlightTrace) (.renderReq 2)).pendingRenders,
      u.id = 3 → u.cancelled = true) ∧
    (∀ ok,
      (step (step (run init inFlightTrace) (.renderReq 2)) (.renderRes 3 ok)).status =
        (step (run init inFlightTrace) (.renderReq 2)).status ∧
      (step (step (run init inFlightTrace) (.renderReq 2)) (.renderRes 3 ok)).surface =
        (step (run init inFlightTrace) (.renderReq 2)).surface ∧
      (step (step (run init inFlightTrace) (.renderReq 2)) (.renderRes 3 ok)).errors =
        (step (run init inFlightTrace) (.renderReq 2)).errors) :=
  render_supersession (run init inFlightTrace) ⟨1, 5, "./pdfs/a.pdf"⟩ ⟨3, 1, 1, false⟩ 2
    rfl rfl (by decide)

/-! ### The pager/page-range invariant

`Inv` is preserved by every public-interface event; the two claims about
reachable states (C7 amended, C9) both follow from the induction. -/

/-- Transfer: `Inv` only mentions the fields `doc`, `page`, `pages`, `prevDisabled`,
`nextDisabled`, `downloadDisabled`, `indicator`; a state agreeing with an
invariant state on those fields satisfies the invariant. -/
theorem inv_of_eq_proj (s u : S)
    (h1 : u.doc = s.doc) (h2 : u.page = s.page) (h3 : u.pages = s.pages)
    (h4 : u.prevDisabled = s.prevDisabled) (h5 : u.nextDisabled = s.nextDisabled)
    (h6 : u.downloadDisabled = s.downloadDisabled) (h7 : u.indicator = s.indicator)
    (hs : Inv s) : Inv u := by
  constructor
  · intro hn
    rw [h1] at hn
    rw [h4, h5, h6]
    exact hs.1 hn
  · intro d hd
    rw [h1] at hd
    rw [h2, h3, h4, h5, h7]
    exact hs.2 d hd

/-- Field values of `renderPageStart` when a document is active. -/
theorem renderPageStart_proj (s : S) (d : Doc) (n : Int) (ctx : Ctx) (hd : s.doc = some d) :
    (renderPageStart s n ctx).doc = some d ∧
    (renderPageStart s n ctx).page = n ∧
    (renderPageStart s n ctx).pages = s.pages ∧
    (renderPageStart s n ctx).prevDisabled = !decide (1 < n) ∧
    (renderPageStart s n ctx).nextDisabled = !decide (n < s.pages) ∧
    (renderPageStart s n ctx).downloadDisabled = s.downloadDisabled ∧
    (renderPageStart s n ctx).indicator = pageIndicatorText n s.pages := by
  refine ⟨?_, ?_, ?_, ?_, ?_, ?_, ?_⟩ <;>
    simp [renderPageStart, hd, cancelInFlight, updatePager, setStatus]

/-- Starting a render at an in-range page of an active document restores
the invariant (the synchronous prefix runs `updatePager` itself). -/
theorem inv_renderPageStart_some (s : S) (d : Doc) (n : Int) (ctx : Ctx)
    (hd : s.doc = some d) (h1 : 1 ≤ n) (h2 : n ≤ s.pages) :
    Inv (renderPageStart s n ctx) := by
  obtain ⟨pd, pp, ppg, ppr, pnx, pdl, pin⟩ := renderPageStart_proj s d n ctx hd
  constructor
  · intro h
    rw [pd] at h
    exact absurd h (by simp)
  · intro d' _
    rw [pp, ppg, ppr, pnx, pin]
    exact ⟨h1, h2, rfl, rfl, rfl⟩

/-- Starting a load establishes the invariant outright: no active
document and all controls disabled. -/
theorem inv_loadPdfStart (s : S) (item : Item) : Inv (loadPdfStart s item) := by
  constructor
  · intro _
    exact ⟨rfl, rfl, rfl⟩
  · intro d hd
    exact absurd hd (by simp [loadPdfStart, setControlsEnabled, setStatus])

/-- Field values of a successful load resolution. -/
theorem onLoadResolved_proj (s : S) (lid : Nat) (k : Int) (p : PendingLoad)
    (hp : s.pendingLoads.find? (fun q => q.id == lid) = some p) :
    (onLoadResolved s lid k).doc = some ⟨s.nextId, k, p.href⟩ ∧
    (onLoadResolved s lid k).page = 1 ∧
    (onLoadResolved s lid k).pages = k ∧
    (onLoadResolved s lid k).prevDisabled = true ∧
    (onLoadResolved s lid k).nextDisabled = !decide ((1 : Int) < k) ∧
    (onLoadResolved s lid k).indicator = pageIndicatorText 1 k := by
  refine ⟨?_, ?_, ?_, ?_, ?_, ?_⟩ <;>
    simp [onLoadResolved, hp, renderPageStart, cancelInFlight, updatePager,
      setStatus, setControlsEnabled]

/-- A failed load resolution leaves every `Inv` field unchanged. -/
theorem onLoadFailed_proj (s : S) (lid : Nat) :
    (onLoadFailed s lid).doc = s.doc ∧
    (onLoadFailed s lid).page = s.page ∧
    (onLoadFailed s lid).pages = s.pages ∧
    (onLoadFailed s lid).prevDisabled = s.prevDisabled ∧
    (onLoadFailed s lid).nextDisabled = s.nextDisabled ∧
    (onLoadFailed s lid).downloadDisabled = s.downloadDisabled ∧
    (onLoadFailed s lid).indicator = s.indicator := by
  cases hp : s.pendingLoads.find? (fun q => q.id == lid) with
  | none => simp [onLoadFailed, hp]
  | some p =>
    by_cases ha : p.attempt = 1 <;>
      refine ⟨?_, ?_, ?_, ?_, ?_, ?_, ?_⟩ <;>
        simp [onLoadFailed, hp, ha, setStatus]

/-- A page-fetch resolution leaves every `Inv` field unchanged. -/
theorem onPageResolved_proj (s : S) (gid : Nat) (vw vh : Int) :
    (onPageResolved s gid vw vh).doc = s.doc ∧
    (onPageResolved s gid vw vh).page = s.page ∧
    (onPageResolved s gid vw vh).pages = s.pages ∧
    (onPageResolved s gid vw vh).prevDisabled = s.prevDisabled ∧
    (onPageResolved s gid vw vh).nextDisabled = s.nextDisabled ∧
    (onPageResolved s gid vw vh).downloadDisabled = s.downloadDisabled ∧
    (onPageResolved s gid vw vh).indicator = s.indicator := by
  cases hp : s.pendingPages.find? (fun q => q.id == gid) with
  | none => simp [onPageResolved, hp]
  | some p => refine ⟨?_, ?_, ?_, ?_, ?_, ?_, ?_⟩ <;> simp [onPageResolved, hp]

/-- A page-fetch failure leaves every `Inv` field unchanged. -/
theorem onPageFailed_proj (s : S) (gid : Nat) :
    (onPageFailed s gid).doc = s.doc ∧
    (onPageFailed s gid).page = s.page ∧
    (onPageFailed s gid).pages = s.pages ∧
    (onPageFailed s gid).prevDisabled = s.prevDisabled ∧
    (onPageFailed s gid).nextDisabled = s.nextDisabled ∧
    (onPageFailed s gid).downloadDisabled = s.downloadDisabled ∧
    (onPageFailed s gid).indicator = s.indicator := by
  cases hp : s.pendingPages.find? (fun q => q.id == gid) with
  | none => simp [onPageFailed, hp]
  | some p =>
    cases hc : p.ctx with
    | standalone => refine ⟨?_, ?_, ?_, ?_, ?_, ?_, ?_⟩ <;> simp [onPageFailed, hp, hc]
    | inLoad a =>
      by_cases ha : a = 1 <;>
        refine ⟨?_, ?_, ?_, ?_, ?_, ?_, ?_⟩ <;>
          simp [onPageFailed, hp, hc, ha, setStatus]

/-- A render-task settlement leaves every `Inv` field unchanged. -/
theorem onRenderSettled_proj (s : S) (tid : Nat) (ok : Bool) :
    (onRenderSettled s tid ok).doc = s.doc ∧
    (onRenderSettled s tid ok).page = s.page ∧
    (onRenderSettled s tid ok).pages = s.pages ∧
    (onRenderSettled s tid ok).prevDisabled = s.prevDisabled ∧
    (onRenderSettled s tid ok).nextDisabled = s.nextDisabled ∧
    (onRenderSettled s tid ok).downloadDisabled = s.downloadDisabled ∧
    (onRenderSettled s tid ok).indicator = s.indicator := by
  cases ht : s.pendingRenders.find? (fun u => u.id == tid) with
  | none => simp [onRenderSettled, ht]
  | some t =>
    by_cases hc : t.cancelled = true
    · refine ⟨?_, ?_, ?_, ?_, ?_, ?_, ?_⟩ <;> simp [onRenderSettled, ht, hc]
    · cases ok <;>
        refine ⟨?_, ?_, ?_, ?_, ?_, ?_, ?_⟩ <;>
          simp [onRenderSettled, ht, hc, setStatus]

/-- Every public-interface event preserves the invariant. -/
theorem inv_step (s : S) (ev : Ev) (hs : Inv s) (hev : allowedEv ev = true) :
    Inv (step s ev) := by
  cases ev with
  | select item => exact inv_loadPdfStart s item
  | clickPrev =>
    show Inv (if s.prevDisabled then s else renderPageStart s (s.page - 1) .standalone)
    by_cases hpd : s.prevDisabled
    · simpa [hpd] using hs
    · rw [if_neg hpd]
      cases hd : s.doc with
      | none => simpa [renderPageStart, hd] using hs
      | some d =>
        obtain ⟨h1, h2, h3, _, _⟩ := hs.2 d hd
        have hlt : 1 < s.page := by
          by_contra hle
          exact hpd (by simp [h3, decide_eq_false hle])
        exact inv_renderPageStart_some s d (s.page - 1) .standalone hd
          (by omega) (by omega)
  | clickNext =>
    show Inv (if s.nextDisabled then s else renderPageStart s (s.page + 1) .standalone)
    by_cases hpd : s.nextDisabled
    · simpa [hpd] using hs
    · rw [if_neg hpd]
      cases hd : s.doc with
      | none => simpa [renderPageStart, hd] using hs
      | some d =>
        obtain ⟨h1, h2, _, h4, _⟩ := hs.2 d hd
        have hlt : s.page < s.pages := by
          by_contra hle
          exact hpd (by simp [h4, decide_eq_false hle])
        exact inv_renderPageStart_some s d (s.page + 1) .standalone hd
          (by omega) (by omega)
  | renderReq n => simp [allowedEv] at hev
  | loadOk lid k =>
    have hk : 1 ≤ k := by simpa [allowedEv] using hev
    show Inv (onLoadResolved s lid k)
    cases hp : s.pendingLoads.find? (fun q => q.id == lid) with
    | none => simpa [onLoadResolved, hp] using hs
    | some p =>
      obtain ⟨pd, pp, ppg, ppr, pnx, pin⟩ := onLoadResolved_proj s lid k p hp
      constructor
      · intro h
        rw [pd] at h
        exact absurd h (by simp)
      · intro d' _
        rw [pp, ppg, ppr, pnx, pin]
        refine ⟨le_refl 1, hk, by simp, rfl, rfl⟩
  | loadErr lid =>
    obtain ⟨h1, h2, h3, h4, h5, h6, h7⟩ := onLoadFailed_proj s lid
    exact inv_of_eq_proj s _ h1 h2 h3 h4 h5 h6 h7 hs
  | pageOk gid vw vh =>
    obtain ⟨h1, h2, h3, h4, h5, h6, h7⟩ := onPageResolved_proj s gid vw vh
    exact inv_of_eq_proj s _ h1 h2 h3 h4 h5 h6 h7 hs
  | pageErr gid =>
    obtain ⟨h1, h2, h3, h4, h5, h6, h7⟩ := onPageFailed_proj s gid
    exact inv_of_eq_proj s _ h1 h2 h3 h4 h5 h6 h7 hs
  | renderRes tid ok =>
    obtain ⟨h1, h2, h3, h4, h5, h6, h7⟩ := onRenderSettled_proj s tid ok
    exact inv_of_eq_proj s _ h1 h2 h3 h4 h5 h6 h7 hs

/-- The initial state satisfies the invariant. -/
theorem inv_init : Inv init := by
  constructor
  · intro _
    exact ⟨rfl, rfl, rfl⟩
  · intro d hd
    exact absurd hd (by simp [init])

/-- The invariant holds after any public-interface trace. -/
theorem inv_run_gen (tr : List Ev) :
    ∀ s : S, Inv s → allowedTrace tr = true → Inv (run s tr) := by
  induction tr with
  | nil => exact fun s hs _ => hs
  | cons e es ih =>
    intro s hs h
    rw [allowedTrace, List.all_cons, Bool.and_eq_true] at h
    exact ih (step s e) (inv_step s e hs h.1) h.2

/-- C9: in every state reachable from the initial state through the
public operations — document selection, previous/next clicks (which the
model, like the DOM, ignores while the control is disabled), and backend
resolutions of documents with at least one page — whenever a document is
active, `currentPage` lies in `[1, pageCount]`. -/
theorem page_range_invariant (tr : List Ev) (h : allowedTrace tr = true) (d : Doc)
    (hd : (run init tr).doc = some d) :
    1 ≤ (run init tr).page ∧ (run init tr).page ≤ (run init tr).pages := by
  have hi := (inv_run_gen tr init inv_init h).2 d hd
  exact ⟨hi.1, hi.2.1⟩

/-- C9 witness: after loading and fully rendering the 5-page document A,
the current page is within `[1, 5]`. -/
theorem page_range_witness :
    1 ≤ (run init loadedTrace).page ∧
      (run init loadedTrace).page ≤ (run init loadedTrace).pages :=
  page_range_invariant loadedTrace (by decide) ⟨1, 5, "./pdfs/a.pdf"⟩ rfl

/-- C7 amended: in every state reachable through the public operations,
while a document is active the `previous` control is enabled iff
`currentPage > 1`, the `next` control is enabled iff
`currentPage < pageCount`, and the indicator shows
`Page currentPage / pageCount`; while no document is active both
navigation controls are disabled — but the indicator may then retain the
readout of a previously shown document instead of the neutral
placeholder, as the counterexample trace shows. -/
theorem pager_state (tr : List Ev) (h : allowedTrace tr = true) :
    (∀ d : Doc, (run init tr).doc = some d →
      (run init tr).prevDisabled = !decide (1 < (run init tr).page) ∧
      (run init tr).nextDisabled = !decide ((run init tr).page < (run init tr).pages) ∧
      (run init tr).indicator =
        pageIndicatorText (run init tr).page (run init tr).pages) ∧
    ((run init tr).doc = none →
      (run init tr).prevDisabled = true ∧ (run init tr).nextDisabled = true) := by
  have hi := inv_run_gen tr init inv_init h
  refine ⟨fun d hd => ?_, fun hn => ⟨(hi.1 hn).1, (hi.1 hn).2.1⟩⟩
  obtain ⟨_, _, h3, h4, h5⟩ := hi.2 d hd
  exact ⟨h3, h4, h5⟩

/-- C7 witness: the pager-consistency theorem applied to the loaded
5-page session of `loadedTrace`. -/
theorem pager_state_witness :
    (∀ d : Doc, (run init loadedTrace).doc = some d →
      (run init loadedTrace).prevDisabled = !decide (1 < (run init loadedTrace).page) ∧
      (run init loadedTrace).nextDisabled =
        !decide ((run init loadedTrace).page < (run init loadedTrace).pages) ∧
      (run init loadedTrace).indicator =
        pageIndicatorText (run init loadedTrace).page (run init loadedTrace).pages) ∧
    ((run init loadedTrace).doc = none →
      (run init loadedTrace).prevDisabled = true ∧
        (run init loadedTrace).nextDisabled = true) :=
  pager_state loadedTrace (by decide)

end PdfViewer
